import Mathlib

/-!
Verification of the spurnow customer-support chat backend.

The repository is a Next.js application: a chat POST route
(validation via zod, conversation resolution by session token,
persistence via Prisma, LLM gateway call), a history GET route, a
conversations-listing GET route, and an `LLMService` gateway class.
This file gives a shallow embedding of those routes and the gateway
over an explicit relational-store state, and proves the spec claims
about them.

Modelling conventions:
  - The Prisma store is a `DB` record: lists of conversation and
    message rows, a logical clock (each row write happens at a fresh
    strictly larger instant, modelling `now()` / `@default(now())` /
    `@updatedAt`), and an id counter (modelling `cuid()` defaults).
  - `crypto.randomUUID()` is an external random source: its return
    value is passed to the handler as the `minted` parameter; its
    guarantees (non-empty, fresh) become hypotheses where needed.
  - The OpenAI network call is external: its result is passed in as an
    `LLMOutcome` (a successful completion with optional content, an
    `APIError` with an HTTP status and a raw provider message, or any
    other thrown error with a raw message).
  - JavaScript truthiness of the optional `sessionId` string and of
    error strings is modelled explicitly (`""` is falsy; every error
    string produced by the gateway is non-empty, so `if (error)`
    coincides with presence).
-/

namespace Spurnow

/-- Sender enum of the Prisma schema (`USER | AI`). -/
inductive Sender where
  | USER
  | AI
deriving DecidableEq

/-- Message row: `model Message { id, conversationId, sender, text, timestamp }`.
Ids and timestamps are database-generated (`cuid()` modelled as a counter,
`now()` as the logical clock). -/
structure Message where
  id : Nat
  conversationId : Nat
  sender : Sender
  text : String
  timestamp : Nat
deriving DecidableEq

/-- Conversation row: `model Conversation { id, sessionId, createdAt, updatedAt }`. -/
structure Conversation where
  id : Nat
  sessionId : String
  createdAt : Nat
  updatedAt : Nat
deriving DecidableEq

/-- The relational store: conversation rows, message rows, a logical
clock for `now()`, and a counter for generated ids. -/
structure DB where
  conversations : List Conversation
  messages : List Message
  clock : Nat
  nextId : Nat
deriving DecidableEq

def DB.empty : DB := ⟨[], [], 0, 0⟩

/-- Embeds `prisma.conversation.findUnique({ where: { sessionId } })`. -/
def DB.findConversation (db : DB) (sid : String) : Option Conversation :=
  db.conversations.find? (fun c => c.sessionId == sid)

/-- Embeds `prisma.conversation.create({ data: { sessionId } })`: id,
`createdAt`, `updatedAt` are database defaults (`cuid()`, `now()`). -/
def DB.createConversation (db : DB) (sid : String) : Conversation × DB :=
  let c : Conversation := ⟨db.nextId, sid, db.clock, db.clock⟩
  (c, { db with
          conversations := db.conversations ++ [c]
          clock := db.clock + 1
          nextId := db.nextId + 1 })

/-- Embeds `prisma.message.create({ data: { conversationId, sender, text } })`;
`timestamp` defaults to `now()`. -/
def DB.createMessage (db : DB) (cid : Nat) (sender : Sender) (text : String) : DB :=
  { db with
      messages := db.messages ++ [⟨db.nextId, cid, sender, text, db.clock⟩]
      clock := db.clock + 1
      nextId := db.nextId + 1 }

/-- Timestamp order on message rows, the `orderBy: { timestamp: 'asc' }`
of the Prisma queries. -/
def tsLE (a b : Message) : Prop := a.timestamp ≤ b.timestamp

instance : DecidableRel tsLE := fun a b =>
  inferInstanceAs (Decidable (a.timestamp ≤ b.timestamp))

instance : IsTotal Message tsLE := ⟨fun a b => Nat.le_total a.timestamp b.timestamp⟩

instance : IsTrans Message tsLE := ⟨fun _ _ _ hab hbc => Nat.le_trans hab hbc⟩

/-- Embeds `prisma.message.findMany({ where: { conversationId }, orderBy:
{ timestamp: 'asc' } })`: the conversation's rows, sorted stably by
timestamp. -/
def DB.messagesOf (db : DB) (cid : Nat) : List Message :=
  List.insertionSort tsLE (db.messages.filter (fun m => m.conversationId == cid))

/-- Embeds `prisma.conversation.update({ where: { id }, data:
{ updatedAt: new Date() } })`. -/
def DB.touchConversation (db : DB) (cid : Nat) : DB :=
  { db with
      conversations := db.conversations.map (fun c =>
        if c.id == cid then { c with updatedAt := db.clock } else c)
      clock := db.clock + 1 }

/-! The LLM gateway (`LLMService` in `llm-service.ts`). -/

/-- Role of a chat-completion message sent to the provider. -/
inductive Role where
  | system
  | user
  | assistant
deriving DecidableEq

/-- A chat-completion message, the `ChatMessage` interface. -/
structure ChatMessage where
  role : Role
  content : String
deriving DecidableEq

/-- History entries handed to `generateReply`: `{ sender: string; text: string }`.
The Prisma `Sender` enum serializes to the strings "USER" / "AI". -/
structure HMsg where
  sender : String
  text : String
deriving DecidableEq

def Sender.toStr : Sender → String
  | .USER => "USER"
  | .AI => "AI"

def msgToHMsg (m : Message) : HMsg := ⟨m.sender.toStr, m.text⟩

/-- The fixed instruction block (`SYSTEM_PROMPT` constant): store policy text. -/
def SYSTEM_PROMPT : String :=
  "You are a helpful support agent for \"SpurMart\", a small e-commerce store. Answer clearly and concisely.\n\nHere is what you know about our store:\n\n## Shipping Policy\n- We offer free shipping on orders over $50\n- Standard shipping takes 3-5 business days within the US\n- Express shipping (1-2 business days) is available for $12.99\n- We ship to all 50 US states and Puerto Rico\n- International shipping is not currently available\n\n## Return & Refund Policy\n- Returns are accepted within 30 days of purchase\n- Items must be unworn, unwashed, and in original packaging\n- Return shipping is free for defective items\n- For other returns, customer pays return shipping ($5.99 flat rate)\n- Refunds are processed within 5-7 business days of receiving the return\n- Gift cards and final sale items cannot be returned\n\n## Support Hours\n- Our support team is available Monday-Friday, 9 AM - 6 PM EST\n- Weekend support is limited to email only\n- Response time: typically within 2 hours during business hours\n\n## Payment Methods\n- We accept all major credit cards (Visa, Mastercard, Amex, Discover)\n- PayPal, Apple Pay, and Google Pay are also accepted\n- All payments are securely processed\n\nIf you don\x27t know the answer to a question, politely say you don\x27t have that information and suggest they contact our support team at support@spurmart.com."

/-- Embeds `formatHistory`: note the comparison is with the lowercase
string "user", while persisted senders serialize as "USER" / "AI". -/
def formatHistory (messages : List HMsg) : List ChatMessage :=
  messages.map (fun msg =>
    ⟨if msg.sender == "user" then .user else .assistant, msg.text⟩)

/-- Embeds `.slice(-10)` on an array: the last (at most) 10 elements. -/
def sliceLast10 (l : List ChatMessage) : List ChatMessage :=
  l.drop (l.length - 10)

/-- The chat-completion request body built by `generateReply`. -/
structure CompletionRequest where
  model : String
  messages : List ChatMessage
  max_tokens : Nat
  temperature : ℚ
deriving DecidableEq

/-- The request `generateReply` sends: fixed system prompt first, then
the last 10 formatted history entries, then the new user utterance;
`max_tokens: 500`, `temperature: 0.7`. -/
def buildRequest (model : String) (history : List HMsg) (userMessage : String) :
    CompletionRequest :=
  { model := model
    messages := ⟨.system, SYSTEM_PROMPT⟩ ::
      (sliceLast10 (formatHistory history) ++ [⟨.user, userMessage⟩])
    max_tokens := 500
    temperature := 7 / 10 }

/-- Outcome of the external OpenAI call: a completion (whose
`choices[0]?.message?.content` may be absent), an `OpenAI.APIError`
with a status and a raw provider message, or any other thrown error. -/
inductive LLMOutcome where
  | success (content : Option String)
  | apiError (status : Nat) (raw : String)
  | otherError (raw : String)
deriving DecidableEq

/-- Result of `generateReply`: `{ reply: string; error?: string }`. -/
structure GenResult where
  reply : String
  error : Option String
deriving DecidableEq

/-- Fallback reply used when the completion has no content
(`content || "I apologize, ..."`, where `""` is also falsy). -/
def APOLOGY_REPLY : String :=
  "I apologize, but I couldn\x27t generate a response. Please try again."

def NOT_CONFIGURED_ERROR : String := "LLM service not configured. Please check API key."

def UNAUTHORIZED_ERROR : String := "Invalid API key. Please contact support."

def RATE_LIMIT_ERROR : String :=
  "Service is experiencing high demand. Please try again in a moment."

def UNAVAILABLE_ERROR : String :=
  "Our AI service is temporarily unavailable. Please try again."

def UNKNOWN_ERROR : String := "Something went wrong. Please try again."

/-- The five fixed user-facing gateway error sentences of the error
taxonomy (not-configured, unauthorized, rate-limited,
upstream-unavailable, unknown). -/
def GATEWAY_ERROR_SENTENCES : List String :=
  [NOT_CONFIGURED_ERROR, UNAUTHORIZED_ERROR, RATE_LIMIT_ERROR, UNAVAILABLE_ERROR,
    UNKNOWN_ERROR]

/-- Status-code mapping of the `OpenAI.APIError` catch branch of
`generateReply`: 401, 429 and 500/502/503 get dedicated sentences, any
other status the generic one. The raw provider error is only logged,
never returned. -/
def apiErrorMessage (status : Nat) : String :=
  if status == 401 then UNAUTHORIZED_ERROR
  else if status == 429 then RATE_LIMIT_ERROR
  else if status == 500 || status == 502 || status == 503 then UNAVAILABLE_ERROR
  else UNKNOWN_ERROR

/-- Reply extraction on a successful completion:
`response.choices[0]?.message?.content || "I apologize, ..."`
(absent and `""` both fall back). -/
def completionReply (content : Option String) : String :=
  match content with
  | some c => if c == "" then APOLOGY_REPLY else c
  | none => APOLOGY_REPLY

/-- Embeds `LLMService.generateReply`. `configured` is `this.client !== null`
(an `OPENAI_API_KEY` was present); the history and user message determine
the request, `outcome` the provider's answer; provider errors are mapped
to fixed user-facing sentences. -/
def generateReply (configured : Bool) (outcome : LLMOutcome)
    (_history : List HMsg) (_userMessage : String) : GenResult :=
  if !configured then
    { reply := "", error := some NOT_CONFIGURED_ERROR }
  else
    match outcome with
    | .success content => { reply := completionReply content, error := none }
    | .apiError status _raw => { reply := "", error := some (apiErrorMessage status) }
    | .otherError _raw => { reply := "", error := some UNKNOWN_ERROR }

/-! The chat POST route (`src/app/api/chat/route.ts`). -/

def MAX_MESSAGE_LENGTH : Nat := 2000

/-- Embeds the zod `messageSchema` check on the message field:
`z.string().min(1).max(MAX_MESSAGE_LENGTH)`. -/
def messageSchemaAccepts (message : String) : Prop :=
  1 ≤ message.length ∧ message.length ≤ MAX_MESSAGE_LENGTH

instance (message : String) : Decidable (messageSchemaAccepts message) :=
  inferInstanceAs (Decidable (_ ∧ _))

/-- First zod issue message for a rejected message body. -/
def validationErrorMessage (message : String) : String :=
  if message.length = 0 then "Message cannot be empty"
  else "Message too long (max 2000 characters)"

/-- JavaScript truthiness of the optional `sessionId` string: absent and
`""` are falsy. -/
def truthy : Option String → Bool
  | none => false
  | some s => !(s == "")

/-- Embeds lines 84-96 of the POST handler: look the conversation up only
when `sessionId` is truthy; when none is found, create one under
`sessionId || crypto.randomUUID()` (the supplied token when truthy,
otherwise the minted UUID). -/
def resolveConversation (db : DB) (sessionId : Option String) (minted : String) :
    Conversation × DB :=
  let found : Option Conversation :=
    match sessionId with
    | some s => if s == "" then none else db.findConversation s
    | none => none
  match found with
  | some c => (c, db)
  | none =>
      let newSessionId :=
        match sessionId with
        | some s => if s == "" then minted else s
        | none => minted
      db.createConversation newSessionId

/-- Fallback reply returned (and persisted) when no API key is configured. -/
def FALLBACK_REPLY : String :=
  "I\x27m sorry, but our AI support is currently unavailable. Please contact us at support@spurmart.com for assistance."

/-- JSON response of the chat POST route: HTTP status plus the `reply`,
`error` and `sessionId` fields (each absent on some paths). -/
structure ChatResponse where
  status : Nat
  reply : Option String
  error : Option String
  sessionId : Option String
deriving DecidableEq

/-- Result of one POST request: the response, the store after the
request, and (instrumentation) the gateway invocation it made, if any:
the completion request built and the history list handed to
`generateReply`. -/
structure PostOutput where
  resp : ChatResponse
  db : DB
  gatewayRequest : Option CompletionRequest
  gatewayHistory : Option (List HMsg)
deriving DecidableEq

/-- Embeds the POST handler of the chat route. `message` / `sessionId`
are the parsed body fields, `minted` the value `crypto.randomUUID()`
would return, `model` the configured model name, `configured` whether an
API key is present, `outcome` the provider's answer. Side-effect order
follows the source: resolve/create conversation, write user message,
read history, gateway call (or fallback write), write assistant message,
bump `updatedAt`. -/
def POST (db : DB) (message : String) (sessionId : Option String)
    (minted model : String) (configured : Bool) (outcome : LLMOutcome) : PostOutput :=
  if messageSchemaAccepts message then
    let r := resolveConversation db sessionId minted
    let conversation := r.1
    let db1 := r.2
    let db2 := db1.createMessage conversation.id .USER message
    let history := (db2.messagesOf conversation.id).map msgToHMsg
    if configured then
      let req := buildRequest model history message
      let result := generateReply true outcome history message
      match result.error with
      | some e => ⟨⟨500, none, some e, none⟩, db2, some req, some history⟩
      | none =>
          let db3 := db2.createMessage conversation.id .AI result.reply
          let db4 := db3.touchConversation conversation.id
          ⟨⟨200, some result.reply, none, some conversation.sessionId⟩, db4,
            some req, some history⟩
    else
      let db3 := db2.createMessage conversation.id .AI FALLBACK_REPLY
      ⟨⟨200, some FALLBACK_REPLY, none, some conversation.sessionId⟩, db3, none, none⟩
  else
    ⟨⟨400, none, some (validationErrorMessage message), none⟩, db, none, none⟩

/-! The history GET route (`src/app/api/chat/history/route.ts`). -/

/-- Projection of a message row selected by the history route
(`select: { id, sender, text, timestamp }`). -/
structure HistoryItem where
  id : Nat
  sender : Sender
  text : String
  timestamp : Nat
deriving DecidableEq

def Message.toItem (m : Message) : HistoryItem := ⟨m.id, m.sender, m.text, m.timestamp⟩

/-- JSON response of the history GET route. -/
structure HistoryResponse where
  status : Nat
  messages : List HistoryItem
  error : Option String
  sessionId : Option String
deriving DecidableEq

/-- Embeds the GET handler of the history route: `sessionId` is the
query parameter (`none` when absent); `historySchema` rejects a missing
or empty value with 400; an unknown session yields an empty list with
status 200; otherwise the conversation's messages ordered by ascending
timestamp. The handler only reads the store; it is a function of `db`
returning a response and no new state. -/
def GETHistory (db : DB) (sessionId : Option String) : HistoryResponse :=
  match sessionId with
  | none => ⟨400, [], some "Expected string, received null", none⟩
  | some s =>
      if s == "" then ⟨400, [], some "Session ID is required", none⟩
      else
        match db.findConversation s with
        | none => ⟨200, [], none, some s⟩
        | some c => ⟨200, (db.messagesOf c.id).map Message.toItem, none, some c.sessionId⟩

/-! The conversations GET route (`src/app/api/chat/conversations/route.ts`). -/

/-- One entry of the conversations listing. -/
structure ConversationSummary where
  id : Nat
  sessionId : String
  createdAt : Nat
  updatedAt : Nat
  messageCount : Nat
  firstMessage : String
deriving DecidableEq

/-- Descending `updatedAt` order of the listing
(`orderBy: { updatedAt: 'desc' }`). -/
def updatedDesc (a b : Conversation) : Prop := b.updatedAt ≤ a.updatedAt

instance : DecidableRel updatedDesc := fun a b =>
  inferInstanceAs (Decidable (b.updatedAt ≤ a.updatedAt))

instance : IsTotal Conversation updatedDesc :=
  ⟨fun a b => Nat.le_total b.updatedAt a.updatedAt⟩

instance : IsTrans Conversation updatedDesc :=
  ⟨fun _ _ _ hab hbc => Nat.le_trans hbc hab⟩

/-- Embeds the GET handler of the conversations route: every
conversation, ordered by most-recently updated, with its total message
count (`_count.messages`) and the text of its earliest message
(`messages[0]?.text || 'New conversation'`, where `""` is falsy). -/
def GETConversations (db : DB) : List ConversationSummary :=
  (List.insertionSort updatedDesc db.conversations).map (fun conv =>
    { id := conv.id
      sessionId := conv.sessionId
      createdAt := conv.createdAt
      updatedAt := conv.updatedAt
      messageCount := (db.messages.filter (fun m => m.conversationId == conv.id)).length
      firstMessage :=
        match (db.messagesOf conv.id).head? with
        | some m => if m.text == "" then "New conversation" else m.text
        | none => "New conversation" })

/-! General list helpers. -/

theorem getLast?_cons_of_ne_nil {α : Type _} (a : α) {l : List α} (h : l ≠ []) :
    (a :: l).getLast? = l.getLast? := by
  cases l with
  | nil => exact absurd rfl h
  | cons b t => exact List.getLast?_cons_cons

theorem getLast?_drop_of_lt {α : Type _} :
    ∀ (l : List α) (k : Nat), k < l.length → (l.drop k).getLast? = l.getLast? := by
  intro l
  induction l with
  | nil => intro k hk; simp at hk
  | cons a t ih =>
      intro k hk
      cases k with
      | zero => rfl
      | succ k =>
          have hk' : k < t.length := by simpa using hk
          have ht : t ≠ [] := by
            intro h
            rw [h] at hk'
            simp at hk'
          rw [List.drop_succ_cons, ih k hk', getLast?_cons_of_ne_nil a ht]

theorem pairwise_getLast_rel {α : Type _} {r : α → α → Prop} :
    ∀ {l : List α} {x y : α}, l.Pairwise r → l.getLast? = some x → y ∈ l →
      y = x ∨ r y x := by
  intro l
  induction l with
  | nil => intro x y _ hl; simp at hl
  | cons a t ih =>
      intro x y hp hl hy
      cases t with
      | nil =>
          simp at hl hy
          subst hl; subst hy; exact Or.inl rfl
      | cons b t' =>
          have hl' : (b :: t').getLast? = some x := by
            rw [← List.getLast?_cons_cons (a := a)]; exact hl
          rcases List.mem_cons.mp hy with rfl | hy'
          · have hx : x ∈ b :: t' := List.mem_of_mem_getLast? hl'
            exact Or.inr ((List.pairwise_cons.mp hp).1 x hx)
          · exact ih (List.pairwise_cons.mp hp).2 hl' hy'

/-- A strictly maximal final element ends up last after the stable
ascending sort that embeds `orderBy: { timestamp: 'asc' }`. -/
theorem insertionSort_getLast?_of_max (xs : List Message) (m : Message)
    (h : ∀ x ∈ xs, x.timestamp < m.timestamp) :
    (List.insertionSort tsLE (xs ++ [m])).getLast? = some m := by
  have hperm : List.Perm (List.insertionSort tsLE (xs ++ [m])) (xs ++ [m]) :=
    List.perm_insertionSort tsLE _
  have hsorted : List.Sorted tsLE (List.insertionSort tsLE (xs ++ [m])) :=
    List.sorted_insertionSort tsLE _
  have hmem : m ∈ List.insertionSort tsLE (xs ++ [m]) := hperm.mem_iff.mpr (by simp)
  cases hL : (List.insertionSort tsLE (xs ++ [m])).getLast? with
  | none =>
      rw [List.getLast?_eq_none_iff] at hL
      rw [hL] at hmem
      simp at hmem
  | some L =>
      have hLmem : L ∈ List.insertionSort tsLE (xs ++ [m]) :=
        List.mem_of_mem_getLast? hL
      have hLin : L ∈ xs ++ [m] := hperm.mem_iff.mp hLmem
      have hrel : m = L ∨ tsLE m L := pairwise_getLast_rel hsorted hL hmem
      rcases List.mem_append.mp hLin with hxs | hm'
      · have h1 := h L hxs
        rcases hrel with rfl | hle
        · exact absurd h1 (lt_irrefl _)
        · exact absurd (Nat.lt_of_le_of_lt hle h1) (lt_irrefl _)
      · simp at hm'
        rw [hm']

/-! Facts about conversation resolution (lines 84-96 of the POST handler). -/

theorem resolveConversation_found (db : DB) (s minted : String) (c : Conversation)
    (hs : s ≠ "") (hc : db.findConversation s = some c) :
    resolveConversation db (some s) minted = (c, db) := by
  have hbeq : (s == "") = false := beq_eq_false_iff_ne.mpr hs
  simp [resolveConversation, hbeq, hc]

theorem resolveConversation_notFound (db : DB) (s minted : String)
    (hs : s ≠ "") (hc : db.findConversation s = none) :
    resolveConversation db (some s) minted = db.createConversation s := by
  have hbeq : (s == "") = false := beq_eq_false_iff_ne.mpr hs
  simp [resolveConversation, hbeq, hc]

theorem resolveConversation_noToken (db : DB) (minted : String) :
    resolveConversation db none minted = db.createConversation minted := rfl

theorem resolveConversation_emptyToken (db : DB) (minted : String) :
    resolveConversation db (some "") minted = db.createConversation minted := rfl

/-- Resolution always yields a conversation present in the resulting
store, leaves the message table alone, and only moves the clock forward. -/
theorem resolveConversation_spec (db : DB) (sessionId : Option String) (minted : String) :
    (resolveConversation db sessionId minted).1 ∈
        (resolveConversation db sessionId minted).2.conversations ∧
    (resolveConversation db sessionId minted).2.messages = db.messages ∧
    db.clock ≤ (resolveConversation db sessionId minted).2.clock ∧
    ((resolveConversation db sessionId minted).2.conversations = db.conversations ∨
      (resolveConversation db sessionId minted).2.conversations =
        db.conversations ++ [(resolveConversation db sessionId minted).1] ∧
      (resolveConversation db sessionId minted).1.updatedAt =
        (resolveConversation db sessionId minted).1.createdAt) := by
  unfold resolveConversation
  cases sessionId with
  | none => simp [DB.createConversation]
  | some s =>
      by_cases hbeq : (s == "") = true
      · simp [hbeq, DB.createConversation]
      · rw [Bool.not_eq_true] at hbeq
        cases hc : db.findConversation s with
        | none => simp [hbeq, hc, DB.createConversation]
        | some c =>
            simp only [hbeq, hc]
            exact ⟨List.mem_of_find?_eq_some hc, rfl, le_refl _, Or.inl rfl⟩

/-! Symbolic execution of the POST handler on its three main paths. -/

theorem post_fallback_eq (db : DB) (message : String) (sessionId : Option String)
    (minted model : String) (outcome : LLMOutcome) (hm : messageSchemaAccepts message) :
    POST db message sessionId minted model false outcome =
      ⟨⟨200, some FALLBACK_REPLY, none,
          some (resolveConversation db sessionId minted).1.sessionId⟩,
        { conversations := (resolveConversation db sessionId minted).2.conversations
          messages := (resolveConversation db sessionId minted).2.messages ++
            [⟨(resolveConversation db sessionId minted).2.nextId,
                (resolveConversation db sessionId minted).1.id, .USER, message,
                (resolveConversation db sessionId minted).2.clock⟩,
              ⟨(resolveConversation db sessionId minted).2.nextId + 1,
                (resolveConversation db sessionId minted).1.id, .AI, FALLBACK_REPLY,
                (resolveConversation db sessionId minted).2.clock + 1⟩]
          clock := (resolveConversation db sessionId minted).2.clock + 2
          nextId := (resolveConversation db sessionId minted).2.nextId + 2 },
        none, none⟩ := by
  unfold POST
  rw [if_pos hm]
  simp [DB.createMessage]

theorem post_gatewayHistory_def (db : DB) (message : String) (sessionId : Option String)
    (minted model : String) (outcome : LLMOutcome) (hm : messageSchemaAccepts message) :
    (POST db message sessionId minted model true outcome).gatewayHistory =
      some ((((resolveConversation db sessionId minted).2.createMessage
          (resolveConversation db sessionId minted).1.id .USER message).messagesOf
          (resolveConversation db sessionId minted).1.id).map msgToHMsg) ∧
    (POST db message sessionId minted model true outcome).gatewayRequest =
      some (buildRequest model
        ((((resolveConversation db sessionId minted).2.createMessage
            (resolveConversation db sessionId minted).1.id .USER message).messagesOf
            (resolveConversation db sessionId minted).1.id).map msgToHMsg) message) := by
  unfold POST
  rw [if_pos hm]
  cases outcome with
  | success content => exact ⟨rfl, rfl⟩
  | apiError st raw => exact ⟨rfl, rfl⟩
  | otherError raw => exact ⟨rfl, rfl⟩

theorem post_apiError_eq (db : DB) (message : String) (sessionId : Option String)
    (minted model : String) (st : Nat) (raw : String) (hm : messageSchemaAccepts message) :
    POST db message sessionId minted model true (.apiError st raw) =
      ⟨⟨500, none, some (apiErrorMessage st), none⟩,
        { conversations := (resolveConversation db sessionId minted).2.conversations
          messages := (resolveConversation db sessionId minted).2.messages ++
            [⟨(resolveConversation db sessionId minted).2.nextId,
                (resolveConversation db sessionId minted).1.id, .USER, message,
                (resolveConversation db sessionId minted).2.clock⟩]
          clock := (resolveConversation db sessionId minted).2.clock + 1
          nextId := (resolveConversation db sessionId minted).2.nextId + 1 },
        some (buildRequest model
          ((((resolveConversation db sessionId minted).2.createMessage
              (resolveConversation db sessionId minted).1.id .USER message).messagesOf
              (resolveConversation db sessionId minted).1.id).map msgToHMsg) message),
        some ((((resolveConversation db sessionId minted).2.createMessage
            (resolveConversation db sessionId minted).1.id .USER message).messagesOf
            (resolveConversation db sessionId minted).1.id).map msgToHMsg)⟩ := by
  unfold POST
  rw [if_pos hm]
  simp [DB.createMessage, generateReply]

theorem post_otherError_eq (db : DB) (message : String) (sessionId : Option String)
    (minted model : String) (raw : String) (hm : messageSchemaAccepts message) :
    POST db message sessionId minted model true (.otherError raw) =
      ⟨⟨500, none, some UNKNOWN_ERROR, none⟩,
        { conversations := (resolveConversation db sessionId minted).2.conversations
          messages := (resolveConversation db sessionId minted).2.messages ++
            [⟨(resolveConversation db sessionId minted).2.nextId,
                (resolveConversation db sessionId minted).1.id, .USER, message,
                (resolveConversation db sessionId minted).2.clock⟩]
          clock := (resolveConversation db sessionId minted).2.clock + 1
          nextId := (resolveConversation db sessionId minted).2.nextId + 1 },
        some (buildRequest model
          ((((resolveConversation db sessionId minted).2.createMessage
              (resolveConversation db sessionId minted).1.id .USER message).messagesOf
              (resolveConversation db sessionId minted).1.id).map msgToHMsg) message),
        some ((((resolveConversation db sessionId minted).2.createMessage
            (resolveConversation db sessionId minted).1.id .USER message).messagesOf
            (resolveConversation db sessionId minted).1.id).map msgToHMsg)⟩ := by
  unfold POST
  rw [if_pos hm]
  simp [DB.createMessage, generateReply]

theorem post_success_eq (db : DB) (message : String) (sessionId : Option String)
    (minted model : String) (content : Option String) (hm : messageSchemaAccepts message) :
    POST db message sessionId minted model true (.success content) =
      ⟨⟨200, some (completionReply content), none,
          some (resolveConversation db sessionId minted).1.sessionId⟩,
        { conversations := (resolveConversation db sessionId minted).2.conversations.map
            (fun c => if c.id == (resolveConversation db sessionId minted).1.id then
              { c with updatedAt := (resolveConversation db sessionId minted).2.clock + 2 }
              else c)
          messages := (resolveConversation db sessionId minted).2.messages ++
            [⟨(resolveConversation db sessionId minted).2.nextId,
                (resolveConversation db sessionId minted).1.id, .USER, message,
                (resolveConversation db sessionId minted).2.clock⟩,
              ⟨(resolveConversation db sessionId minted).2.nextId + 1,
                (resolveConversation db sessionId minted).1.id, .AI,
                completionReply content,
                (resolveConversation db sessionId minted).2.clock + 1⟩]
          clock := (resolveConversation db sessionId minted).2.clock + 3
          nextId := (resolveConversation db sessionId minted).2.nextId + 2 },
        some (buildRequest model
          ((((resolveConversation db sessionId minted).2.createMessage
              (resolveConversation db sessionId minted).1.id .USER message).messagesOf
              (resolveConversation db sessionId minted).1.id).map msgToHMsg) message),
        some ((((resolveConversation db sessionId minted).2.createMessage
            (resolveConversation db sessionId minted).1.id .USER message).messagesOf
            (resolveConversation db sessionId minted).1.id).map msgToHMsg)⟩ := by
  unfold POST
  rw [if_pos hm]
  simp [DB.createMessage, DB.touchConversation, generateReply]

theorem post_invalid_eq (db : DB) (message : String) (sessionId : Option String)
    (minted model : String) (configured : Bool) (outcome : LLMOutcome)
    (hm : ¬ messageSchemaAccepts message) :
    POST db message sessionId minted model configured outcome =
      ⟨⟨400, none, some (validationErrorMessage message), none⟩, db, none, none⟩ := by
  unfold POST
  rw [if_neg hm]

/-- C4: the zod schema accepts exactly message lengths 1..2000; a message
of length 0 or above 2000 is rejected with status 400, an error field,
and no change at all to the store. -/
theorem message_validation_bounds (db : DB) (message : String)
    (sessionId : Option String) (minted model : String) (configured : Bool)
    (outcome : LLMOutcome) :
    (messageSchemaAccepts message ↔ 1 ≤ message.length ∧ message.length ≤ 2000) ∧
    (message.length = 0 ∨ message.length > 2000 →
      (POST db message sessionId minted model configured outcome).resp.status = 400 ∧
      (POST db message sessionId minted model configured outcome).resp.error.isSome ∧
      (POST db message sessionId minted model configured outcome).db = db) := by
  constructor
  · exact Iff.rfl
  · intro h
    have hno : ¬ messageSchemaAccepts message := by
      intro hacc
      rcases hacc with ⟨h1, h2⟩
      have h2' : message.length ≤ 2000 := h2
      rcases h with h | h <;> omega
    rw [post_invalid_eq db message sessionId minted model configured outcome hno]
    exact ⟨rfl, rfl, rfl⟩

/-- Witness for `message_validation_bounds`: a 2001-character message is
rejected with a 400 and the store is untouched. -/
theorem message_validation_bounds_witness :
    (POST DB.empty (String.mk (List.replicate 2001 'a')) none "u" "m" false
        (.success none)).resp.status = 400 ∧
    (POST DB.empty (String.mk (List.replicate 2001 'a')) none "u" "m" false
        (.success none)).resp.error.isSome ∧
    (POST DB.empty (String.mk (List.replicate 2001 'a')) none "u" "m" false
        (.success none)).db = DB.empty := by
  have h := (message_validation_bounds DB.empty (String.mk (List.replicate 2001 'a'))
    none "u" "m" false (.success none)).2
  refine h (Or.inr ?_)
  show 2000 < (List.replicate 2001 'a').length
  rw [List.length_replicate]
  omega

/-- C7: the request built by `generateReply` opens with the fixed store
policy instruction block, keeps only the (at most 10) most recent history
entries in order as a suffix of the formatted history, closes with the
new user utterance, caps output at 500 tokens and fixes temperature 0.7. -/
theorem buildRequest_shape (model : String) (history : List HMsg) (userMessage : String) :
    (buildRequest model history userMessage).messages.head? =
        some ⟨Role.system, SYSTEM_PROMPT⟩ ∧
    (buildRequest model history userMessage).messages =
      ⟨Role.system, SYSTEM_PROMPT⟩ ::
        (sliceLast10 (formatHistory history) ++ [⟨Role.user, userMessage⟩]) ∧
    sliceLast10 (formatHistory history) <:+ formatHistory history ∧
    (sliceLast10 (formatHistory history)).length = min 10 history.length ∧
    (buildRequest model history userMessage).messages.getLast? =
        some ⟨Role.user, userMessage⟩ ∧
    (buildRequest model history userMessage).max_tokens = 500 ∧
    (buildRequest model history userMessage).temperature = 7 / 10 := by
  refine ⟨rfl, rfl, List.drop_suffix _ _, ?_, ?_, rfl, rfl⟩
  · simp only [sliceLast10, List.length_drop, formatHistory, List.length_map]
    omega
  · show ((⟨Role.system, SYSTEM_PROMPT⟩ :: sliceLast10 (formatHistory history)) ++
        [(⟨Role.user, userMessage⟩ : ChatMessage)]).getLast? = _
    exact List.getLast?_concat _

/-- C10: a non-empty but unknown session id yields status 200 with an
empty message list and the supplied id echoed back; only a missing or
empty session id parameter is a 400. -/
theorem history_unknown_session (db : DB) (s : String) (hs : s ≠ "")
    (hc : db.findConversation s = none) :
    GETHistory db (some s) = ⟨200, [], none, some s⟩ ∧
    (GETHistory db none).status = 400 ∧ (GETHistory db none).error.isSome ∧
    (GETHistory db (some "")).status = 400 ∧
    (GETHistory db (some "")).error.isSome := by
  have hbeq : (s == "") = false := beq_eq_false_iff_ne.mpr hs
  refine ⟨?_, rfl, rfl, rfl, rfl⟩
  simp [GETHistory, hbeq, hc]

/-- Witness for `history_unknown_session` on the empty store. -/
theorem history_unknown_session_witness :
    GETHistory DB.empty (some "nope") = ⟨200, [], none, some "nope"⟩ ∧
    (GETHistory DB.empty none).status = 400 ∧
    (GETHistory DB.empty (some "")).status = 400 := by
  have h := history_unknown_session DB.empty "nope" (by decide) rfl
  exact ⟨h.1, h.2.1, h.2.2.2.1⟩

/-- C9: for a session with an existing conversation the history route
answers 200 with messages in non-decreasing timestamp order, and those
messages are exactly (a permutation of, hence all of) the conversation's
stored messages; the route reads the store without mutating it. -/
theorem history_messages_sorted (db : DB) (s : String) (c : Conversation)
    (hs : s ≠ "") (hc : db.findConversation s = some c) :
    (GETHistory db (some s)).status = 200 ∧
    List.Pairwise (fun a b => a ≤ b)
      ((GETHistory db (some s)).messages.map HistoryItem.timestamp) ∧
    List.Perm (GETHistory db (some s)).messages
      ((db.messages.filter (fun m => m.conversationId == c.id)).map Message.toItem) := by
  have hbeq : (s == "") = false := beq_eq_false_iff_ne.mpr hs
  have hres : GETHistory db (some s) =
      ⟨200, (db.messagesOf c.id).map Message.toItem, none, some c.sessionId⟩ := by
    simp [GETHistory, hbeq, hc]
  rw [hres]
  unfold DB.messagesOf
  refine ⟨rfl, ?_, ?_⟩
  · rw [List.map_map]
    exact List.Pairwise.map _ (fun a b hab => hab)
      (List.sorted_insertionSort tsLE _)
  · exact (List.perm_insertionSort tsLE _).map Message.toItem

/-- Witness for `history_messages_sorted` on a two-message store. -/
theorem history_messages_sorted_witness :
    (GETHistory (⟨[⟨0, "s", 0, 0⟩], [⟨1, 0, .USER, "a", 1⟩, ⟨2, 0, .AI, "b", 2⟩], 3, 3⟩ : DB)
        (some "s")).status = 200 ∧
    List.Pairwise (fun a b => a ≤ b)
      ((GETHistory (⟨[⟨0, "s", 0, 0⟩], [⟨1, 0, .USER, "a", 1⟩, ⟨2, 0, .AI, "b", 2⟩], 3, 3⟩ : DB)
          (some "s")).messages.map HistoryItem.timestamp) := by
  have h := history_messages_sorted
    (⟨[⟨0, "s", 0, 0⟩], [⟨1, 0, .USER, "a", 1⟩, ⟨2, 0, .AI, "b", 2⟩], 3, 3⟩ : DB)
    "s" ⟨0, "s", 0, 0⟩ (by decide) (by decide)
  exact ⟨h.1, h.2.1⟩

/-- C1 counterexample: a supplied session token that matches no existing
conversation is reused verbatim for the new conversation — no fresh token
is minted and returned. Here "tok" matches nothing in the empty store,
yet the response carries "tok" (not the available fresh UUID), the new
conversation is created under "tok", and the output does not depend on
the minted value at all. -/
theorem session_resolution_counterexample :
    (POST DB.empty "hi" (some "tok") "fresh-uuid" "m" false (.success none)).resp.sessionId
        = some "tok" ∧
    (POST DB.empty "hi" (some "tok") "fresh-uuid" "m" false (.success none)).resp.sessionId
        ≠ some "fresh-uuid" ∧
    (POST DB.empty "hi" (some "tok") "fresh-uuid" "m" false
        (.success none)).db.conversations.map Conversation.sessionId = ["tok"] ∧
    POST DB.empty "hi" (some "tok") "a" "m" false (.success none) =
      POST DB.empty "hi" (some "tok") "b" "m" false (.success none) := by
  decide

/-- C2 counterexample: the fallback (unconfigured-gateway) path persists
the assistant turn but returns without bumping `updatedAt`. After a first
message creates conversation "t1" (updatedAt 0) and a second message is
answered by the fallback, the store holds four messages yet the
conversation's `updatedAt` is still 0 while the clock has advanced. -/
theorem timestamp_bump_counterexample :
    ((POST (POST DB.empty "hi" none "t1" "m" false (.success none)).db "yo" (some "t1")
        "t2" "m" false (.success none)).db.conversations.map Conversation.updatedAt
      = [0]) ∧
    (POST (POST DB.empty "hi" none "t1" "m" false (.success none)).db "yo" (some "t1")
        "t2" "m" false (.success none)).db.messages.length = 4 ∧
    (POST (POST DB.empty "hi" none "t1" "m" false (.success none)).db "yo" (some "t1")
        "t2" "m" false (.success none)).resp.status = 200 ∧
    ((POST (POST DB.empty "hi" none "t1" "m" false (.success none)).db "yo" (some "t1")
        "t2" "m" false (.success none)).db.messages.map Message.sender)
      = [.USER, .AI, .USER, .AI] ∧
    4 ≤ (POST (POST DB.empty "hi" none "t1" "m" false (.success none)).db "yo" (some "t1")
        "t2" "m" false (.success none)).db.clock := by
  decide

/-- C8 counterexample: each delivered send persists two rows (the user
turn and the assistant turn), so after two messages in session "s1" and
one in "s2" the listing returns "s2" first but with message counts 2 and
4 — not 1 and 2 as the claim states. -/
theorem conversations_listing_counterexample :
    ((GETConversations (POST (POST (POST DB.empty "m1" (some "s1") "u1" "m" false
          (.success none)).db "m2" (some "s1") "u2" "m" false (.success none)).db
          "m3" (some "s2") "u3" "m" false (.success none)).db).map
        (fun c => (c.sessionId, c.messageCount)))
      = [("s2", 2), ("s1", 4)] ∧
    ¬ ((GETConversations (POST (POST (POST DB.empty "m1" (some "s1") "u1" "m" false
          (.success none)).db "m2" (some "s1") "u2" "m" false (.success none)).db
          "m3" (some "s2") "u3" "m" false (.success none)).db).map
        (fun c => (c.sessionId, c.messageCount)))
      = [("s2", 1), ("s1", 2)] := by
  decide

/-- C5: with no API key configured, every valid send succeeds with the
fixed fallback sentence and the resolved session token, and both the
user turn and the fallback are appended to the conversation's messages;
an unconfigured gateway is never a hard failure. -/
theorem fallback_reply_persisted (db : DB) (message : String)
    (sessionId : Option String) (minted model : String) (outcome : LLMOutcome)
    (hm : messageSchemaAccepts message) :
    (POST db message sessionId minted model false outcome).resp.status = 200 ∧
    (POST db message sessionId minted model false outcome).resp.reply =
        some FALLBACK_REPLY ∧
    (POST db message sessionId minted model false outcome).resp.error = none ∧
    ∃ c ∈ (POST db message sessionId minted model false outcome).db.conversations,
      (POST db message sessionId minted model false outcome).resp.sessionId =
          some c.sessionId ∧
      ∃ um am,
        (POST db message sessionId minted model false outcome).db.messages =
            db.messages ++ [um, am] ∧
        um.conversationId = c.id ∧ um.sender = .USER ∧ um.text = message ∧
        am.conversationId = c.id ∧ am.sender = .AI ∧ am.text = FALLBACK_REPLY := by
  rw [post_fallback_eq db message sessionId minted model outcome hm]
  obtain ⟨hmem, hmsgs, -, -⟩ := resolveConversation_spec db sessionId minted
  refine ⟨rfl, rfl, rfl, (resolveConversation db sessionId minted).1, hmem, rfl,
    ⟨(resolveConversation db sessionId minted).2.nextId,
      (resolveConversation db sessionId minted).1.id, .USER, message,
      (resolveConversation db sessionId minted).2.clock⟩,
    ⟨(resolveConversation db sessionId minted).2.nextId + 1,
      (resolveConversation db sessionId minted).1.id, .AI, FALLBACK_REPLY,
      (resolveConversation db sessionId minted).2.clock + 1⟩,
    ?_, rfl, rfl, rfl, rfl, rfl, rfl⟩
  rw [hmsgs]

/-- Witness for `fallback_reply_persisted` on the empty store. -/
theorem fallback_reply_persisted_witness :
    (POST DB.empty "hello" none "u" "m" false (.success none)).resp.status = 200 ∧
    (POST DB.empty "hello" none "u" "m" false (.success none)).resp.reply =
        some FALLBACK_REPLY := by
  have h := fallback_reply_persisted DB.empty "hello" none "u" "m" (.success none)
    (by decide)
  exact ⟨h.1, h.2.1⟩

theorem apiErrorMessage_mem (st : Nat) :
    apiErrorMessage st ∈ GATEWAY_ERROR_SENTENCES := by
  unfold apiErrorMessage GATEWAY_ERROR_SENTENCES
  split
  · simp
  · split
    · simp
    · split <;> simp

/-- C3: a categorized gateway error yields a 500 whose error field is one
of the fixed human-readable sentences and does not depend on the raw
provider error; the user turn stays persisted, no assistant turn is
written, and no conversation timestamp is bumped. -/
theorem gateway_error_handling (db : DB) (message : String)
    (sessionId : Option String) (minted model : String) (st : Nat)
    (raw raw2 : String) (hm : messageSchemaAccepts message) :
    (POST db message sessionId minted model true (.apiError st raw)).resp.status = 500 ∧
    (∃ e, (POST db message sessionId minted model true (.apiError st raw)).resp.error =
        some e ∧ e ∈ GATEWAY_ERROR_SENTENCES) ∧
    (POST db message sessionId minted model true (.apiError st raw)).resp.error =
      (POST db message sessionId minted model true (.apiError st raw2)).resp.error ∧
    (∃ um, (POST db message sessionId minted model true (.apiError st raw)).db.messages =
        db.messages ++ [um] ∧ um.sender = .USER ∧ um.text = message) ∧
    ((POST db message sessionId minted model true (.apiError st raw)).db.conversations =
        db.conversations ∨
      ∃ nc, (POST db message sessionId minted model true
            (.apiError st raw)).db.conversations = db.conversations ++ [nc] ∧
        nc.updatedAt = nc.createdAt) ∧
    (POST db message sessionId minted model true (.otherError raw)).resp.status = 500 ∧
    (POST db message sessionId minted model true (.otherError raw)).resp.error =
        some UNKNOWN_ERROR ∧
    (POST db message sessionId minted model true (.otherError raw)).resp.error =
      (POST db message sessionId minted model true (.otherError raw2)).resp.error ∧
    UNKNOWN_ERROR ∈ GATEWAY_ERROR_SENTENCES := by
  obtain ⟨-, hmsgs, -, hconvs⟩ := resolveConversation_spec db sessionId minted
  rw [post_apiError_eq db message sessionId minted model st raw hm,
    post_apiError_eq db message sessionId minted model st raw2 hm,
    post_otherError_eq db message sessionId minted model raw hm,
    post_otherError_eq db message sessionId minted model raw2 hm]
  refine ⟨rfl, ⟨apiErrorMessage st, rfl, apiErrorMessage_mem st⟩, rfl,
    ⟨⟨(resolveConversation db sessionId minted).2.nextId,
        (resolveConversation db sessionId minted).1.id, .USER, message,
        (resolveConversation db sessionId minted).2.clock⟩, ?_, rfl, rfl⟩,
    ?_, rfl, rfl, rfl, by simp [GATEWAY_ERROR_SENTENCES]⟩
  · rw [hmsgs]
  · rcases hconvs with h | ⟨h, hupd⟩
    · exact Or.inl h
    · exact Or.inr ⟨(resolveConversation db sessionId minted).1, h, hupd⟩

/-- Witness for `gateway_error_handling` at a rate-limit error on the
empty store. -/
theorem gateway_error_handling_witness :
    (POST DB.empty "hi" none "u" "m" true (.apiError 429 "raw junk")).resp.status = 500 ∧
    (POST DB.empty "hi" none "u" "m" true (.apiError 429 "raw junk")).resp.error =
      (POST DB.empty "hi" none "u" "m" true (.apiError 429 "other junk")).resp.error := by
  have h := gateway_error_handling DB.empty "hi" none "u" "m" 429 "raw junk"
    "other junk" (by decide)
  exact ⟨h.1, h.2.2.1⟩

/-- Whatever the gateway does, a valid POST leaves the conversation
table's session tokens exactly as resolution produced them (the
success-path `updatedAt` bump touches no token). -/
theorem post_conversations_sessionIds (db : DB) (message : String)
    (sessionId : Option String) (minted model : String) (configured : Bool)
    (outcome : LLMOutcome) (hm : messageSchemaAccepts message) :
    (POST db message sessionId minted model configured outcome).db.conversations.map
        Conversation.sessionId =
      (resolveConversation db sessionId minted).2.conversations.map
        Conversation.sessionId := by
  cases configured with
  | false => rw [post_fallback_eq db message sessionId minted model outcome hm]
  | true =>
      cases outcome with
      | success content =>
          rw [post_success_eq db message sessionId minted model content hm]
          show ((resolveConversation db sessionId minted).2.conversations.map _).map _ = _
          rw [List.map_map]
          apply List.map_congr_left
          intro c _
          show Conversation.sessionId (if c.id == _ then _ else c) = _
          split <;> rfl
      | apiError st raw => rw [post_apiError_eq db message sessionId minted model st raw hm]
      | otherError raw => rw [post_otherError_eq db message sessionId minted model raw hm]

/-- On every 200 response the returned token is the resolved
conversation's token. -/
theorem post_status200_sessionId (db : DB) (message : String)
    (sessionId : Option String) (minted model : String) (configured : Bool)
    (outcome : LLMOutcome) (hm : messageSchemaAccepts message) :
    (POST db message sessionId minted model configured outcome).resp.status = 200 →
    (POST db message sessionId minted model configured outcome).resp.sessionId =
      some (resolveConversation db sessionId minted).1.sessionId := by
  cases configured with
  | false =>
      rw [post_fallback_eq db message sessionId minted model outcome hm]
      intro _
      rfl
  | true =>
      cases outcome with
      | success content =>
          rw [post_success_eq db message sessionId minted model content hm]
          intro _
          rfl
      | apiError st raw =>
          rw [post_apiError_eq db message sessionId minted model st raw hm]
          intro h
          simp at h
      | otherError raw =>
          rw [post_otherError_eq db message sessionId minted model raw hm]
          intro h
          simp at h

/-- C1 (amended): for a valid message, if the supplied (non-empty) token
matches an existing conversation it is reused and returned on success;
if the supplied non-empty token matches no conversation, the new
conversation is created under that same supplied token, which is
returned — no fresh token is minted in this case; only when no token (or
an empty one) is supplied is the freshly minted UUID (non-empty and
distinct from all issued tokens, by the generator's guarantee) used for
the new conversation and returned. -/
theorem session_token_resolution (db : DB) (message s minted model : String)
    (configured : Bool) (outcome : LLMOutcome) (hm : messageSchemaAccepts message) :
    (∀ c, s ≠ "" → db.findConversation s = some c →
      (POST db message (some s) minted model configured outcome).db.conversations.map
          Conversation.sessionId = db.conversations.map Conversation.sessionId ∧
      ((POST db message (some s) minted model configured outcome).resp.status = 200 →
        (POST db message (some s) minted model configured outcome).resp.sessionId =
          some s)) ∧
    (s ≠ "" → db.findConversation s = none →
      (POST db message (some s) minted model configured outcome).db.conversations.map
          Conversation.sessionId =
        db.conversations.map Conversation.sessionId ++ [s] ∧
      ((POST db message (some s) minted model configured outcome).resp.status = 200 →
        (POST db message (some s) minted model configured outcome).resp.sessionId =
          some s)) ∧
    ((POST db message none minted model configured outcome).db.conversations.map
        Conversation.sessionId =
      db.conversations.map Conversation.sessionId ++ [minted] ∧
      ((POST db message none minted model configured outcome).resp.status = 200 →
        (POST db message none minted model configured outcome).resp.sessionId =
          some minted)) := by
  refine ⟨?_, ?_, ?_⟩
  · intro c hs hc
    have hr := resolveConversation_found db s minted c hs hc
    have hsid : c.sessionId = s := by
      have := List.find?_some hc
      exact eq_of_beq this
    constructor
    · rw [post_conversations_sessionIds db message (some s) minted model configured
        outcome hm, hr]
    · intro h200
      have := post_status200_sessionId db message (some s) minted model configured
        outcome hm h200
      rw [this, hr, hsid]
  · intro hs hc
    have hr := resolveConversation_notFound db s minted hs hc
    constructor
    · rw [post_conversations_sessionIds db message (some s) minted model configured
        outcome hm, hr]
      simp [DB.createConversation]
    · intro h200
      have := post_status200_sessionId db message (some s) minted model configured
        outcome hm h200
      rw [this, hr]
      rfl
  · constructor
    · rw [post_conversations_sessionIds db message none minted model configured
        outcome hm, resolveConversation_noToken]
      simp [DB.createConversation]
    · intro h200
      have := post_status200_sessionId db message none minted model configured
        outcome hm h200
      rw [this, resolveConversation_noToken]
      rfl

/-- Witness for `session_token_resolution`: with no token supplied on the
empty store, the minted UUID names the new conversation and is returned. -/
theorem session_token_resolution_witness :
    (POST DB.empty "hi" none "fresh-uuid" "m" false
        (.success none)).db.conversations.map Conversation.sessionId = ["fresh-uuid"] ∧
    (POST DB.empty "hi" none "fresh-uuid" "m" false (.success none)).resp.sessionId =
      some "fresh-uuid" := by
  have h := (session_token_resolution DB.empty "hi" "s" "fresh-uuid" "m" false
    (.success none) (by decide)).2.2
  exact ⟨h.1, h.2 (by decide)⟩

/-- C2 (amended): the `updatedAt` bump is the final side effect only on
the configured-gateway success path — there the responding conversation's
`updatedAt` is one clock tick before the final clock and strictly above
every persisted message timestamp (both turns were written first). The
fallback path persists the assistant turn but performs no bump: with a
matching token the conversation rows are left untouched. -/
theorem timestamp_bump_on_success (db : DB) (message s minted model : String)
    (sessionId : Option String) (content : Option String)
    (hm : messageSchemaAccepts message)
    (hts : ∀ m ∈ db.messages, m.timestamp < db.clock) :
    (∃ cv ∈ (POST db message sessionId minted model true
        (.success content)).db.conversations,
      (POST db message sessionId minted model true (.success content)).resp.sessionId =
          some cv.sessionId ∧
      cv.updatedAt + 1 =
        (POST db message sessionId minted model true (.success content)).db.clock ∧
      ∀ m ∈ (POST db message sessionId minted model true (.success content)).db.messages,
        m.timestamp < cv.updatedAt) ∧
    (∀ c, s ≠ "" → db.findConversation s = some c →
      (POST db message (some s) minted model false
          (.success content)).db.conversations = db.conversations ∧
      ∃ am, (POST db message (some s) minted model false (.success content)).db.messages =
          db.messages ++ [⟨db.nextId, c.id, .USER, message, db.clock⟩, am] ∧
        am.sender = .AI ∧ am.text = FALLBACK_REPLY) := by
  constructor
  · obtain ⟨hmem, hmsgs, hclk, -⟩ := resolveConversation_spec db sessionId minted
    rw [post_success_eq db message sessionId minted model content hm]
    refine ⟨_, List.mem_map_of_mem _ hmem, ?_, ?_, ?_⟩
    · show some (resolveConversation db sessionId minted).1.sessionId =
        some (Conversation.sessionId (if _ == _ then _ else _))
      rw [beq_self_eq_true]
      rfl
    · show Conversation.updatedAt (if _ == _ then _ else _) + 1 = _
      rw [beq_self_eq_true]
      rfl
    · intro m hmmem
      show m.timestamp < Conversation.updatedAt (if _ == _ then _ else _)
      rw [beq_self_eq_true]
      show m.timestamp < (resolveConversation db sessionId minted).2.clock + 2
      rcases List.mem_append.mp hmmem with hold | hnew
      · rw [hmsgs] at hold
        have := hts m hold
        omega
      · rcases List.mem_cons.mp hnew with rfl | hnew'
        · show (resolveConversation db sessionId minted).2.clock <
            (resolveConversation db sessionId minted).2.clock + 2
          omega
        · rcases List.mem_singleton.mp hnew' with rfl
          show (resolveConversation db sessionId minted).2.clock + 1 <
            (resolveConversation db sessionId minted).2.clock + 2
          omega
  · intro c hs hc
    have hr := resolveConversation_found db s minted c hs hc
    rw [post_fallback_eq db message (some s) minted model (.success content) hm, hr]
    exact ⟨rfl, ⟨db.nextId + 1, c.id, .AI, FALLBACK_REPLY, db.clock + 1⟩, by
      show db.messages ++ _ = db.messages ++ _
      rfl, rfl, rfl⟩

/-- Witness for `timestamp_bump_on_success` on the empty store. -/
theorem timestamp_bump_on_success_witness :
    ∃ cv ∈ (POST DB.empty "hi" (some "s") "u" "m" true
        (.success (some "ok"))).db.conversations,
      (POST DB.empty "hi" (some "s") "u" "m" true
          (.success (some "ok"))).resp.sessionId = some cv.sessionId ∧
      cv.updatedAt + 1 =
        (POST DB.empty "hi" (some "s") "u" "m" true (.success (some "ok"))).db.clock ∧
      ∀ m ∈ (POST DB.empty "hi" (some "s") "u" "m" true
          (.success (some "ok"))).db.messages, m.timestamp < cv.updatedAt := by
  exact (timestamp_bump_on_success DB.empty "hi" "s" "u" "m" (some "s") (some "ok")
    (by decide) (by intro m hmem; simp [DB.empty] at hmem)).1

/-- After writing the user turn, the ascending-ordered history of the
conversation ends with that user turn: its timestamp is strictly larger
than every earlier one. -/
theorem messagesOf_createMessage_getLast (db1 : DB) (cid : Nat) (text : String)
    (hts : ∀ m ∈ db1.messages, m.timestamp < db1.clock) :
    ((db1.createMessage cid .USER text).messagesOf cid).getLast? =
      some ⟨db1.nextId, cid, .USER, text, db1.clock⟩ := by
  unfold DB.createMessage DB.messagesOf
  rw [List.filter_append]
  have hfilter : List.filter (fun m : Message => m.conversationId == cid)
      [(⟨db1.nextId, cid, .USER, text, db1.clock⟩ : Message)] =
        [(⟨db1.nextId, cid, .USER, text, db1.clock⟩ : Message)] := by
    simp
  rw [hfilter]
  apply insertionSort_getLast?_of_max
  intro x hx
  exact hts x (List.mem_filter.mp hx).1

/-- In the provider request, both the last and the second-to-last message
carry the current user utterance whenever the supplied history already
ends with it. -/
theorem buildRequest_last_two (model : String) (h : List HMsg) (message : String)
    (hlast : h.getLast? = some ⟨"USER", message⟩) :
    ((buildRequest model h message).messages.map ChatMessage.content).getLast? =
        some message ∧
    (((buildRequest model h message).messages.map ChatMessage.content).dropLast).getLast? =
        some message := by
  have hfh : (formatHistory h).getLast? = some ⟨Role.assistant, message⟩ := by
    unfold formatHistory
    rw [List.getLast?_map, hlast]
    rfl
  have hfh_ne : formatHistory h ≠ [] := by
    intro h0
    rw [h0] at hfh
    simp at hfh
  have hlen : 1 ≤ (formatHistory h).length := List.length_pos.mpr hfh_ne
  have hw : (sliceLast10 (formatHistory h)).getLast? = some ⟨Role.assistant, message⟩ := by
    unfold sliceLast10
    rw [getLast?_drop_of_lt _ _ (by omega), hfh]
  have hw_ne : sliceLast10 (formatHistory h) ≠ [] := by
    intro h0
    rw [h0] at hw
    simp at hw
  have hmsgs : (buildRequest model h message).messages.map ChatMessage.content =
      SYSTEM_PROMPT ::
        ((sliceLast10 (formatHistory h)).map ChatMessage.content ++ [message]) := by
    unfold buildRequest
    simp
  constructor
  · rw [hmsgs]
    show ((SYSTEM_PROMPT :: (sliceLast10 (formatHistory h)).map ChatMessage.content) ++
        [message]).getLast? = some message
    exact List.getLast?_concat _
  · rw [hmsgs]
    have hdrop : (SYSTEM_PROMPT ::
        ((sliceLast10 (formatHistory h)).map ChatMessage.content ++ [message])).dropLast =
          SYSTEM_PROMPT :: (sliceLast10 (formatHistory h)).map ChatMessage.content := by
      show ((SYSTEM_PROMPT :: (sliceLast10 (formatHistory h)).map ChatMessage.content) ++
        [message]).dropLast = _
      exact List.dropLast_concat
    rw [hdrop, getLast?_cons_of_ne_nil _ (by
      intro h0
      rw [List.map_eq_nil_iff] at h0
      exact hw_ne h0), List.getLast?_map, hw]
    rfl

/-- C6: on the configured path the user turn is written before the
history read, so the history handed to the gateway ends with the current
user message; the gateway then appends the same utterance again as the
final user turn, hence the provider request carries the current message
both as the last entry of the history window and as the final turn. -/
theorem request_contains_user_message_twice (db : DB) (message : String)
    (sessionId : Option String) (minted model : String) (outcome : LLMOutcome)
    (hm : messageSchemaAccepts message)
    (hts : ∀ m ∈ db.messages, m.timestamp < db.clock) :
    ∃ h req,
      (POST db message sessionId minted model true outcome).gatewayHistory = some h ∧
      (POST db message sessionId minted model true outcome).gatewayRequest = some req ∧
      h.getLast? = some ⟨"USER", message⟩ ∧
      req = buildRequest model h message ∧
      req.messages = ⟨Role.system, SYSTEM_PROMPT⟩ ::
        (sliceLast10 (formatHistory h) ++ [⟨Role.user, message⟩]) ∧
      (req.messages.map ChatMessage.content).getLast? = some message ∧
      ((req.messages.map ChatMessage.content).dropLast).getLast? = some message := by
  obtain ⟨hH, hR⟩ := post_gatewayHistory_def db message sessionId minted model outcome hm
  have hts2 : ∀ m ∈ (resolveConversation db sessionId minted).2.messages,
      m.timestamp < (resolveConversation db sessionId minted).2.clock := by
    obtain ⟨-, hmsgs, hclk, -⟩ := resolveConversation_spec db sessionId minted
    intro m hm'
    rw [hmsgs] at hm'
    exact lt_of_lt_of_le (hts m hm') hclk
  have hlast : ((((resolveConversation db sessionId minted).2.createMessage
      (resolveConversation db sessionId minted).1.id .USER message).messagesOf
      (resolveConversation db sessionId minted).1.id).map msgToHMsg).getLast? =
        some ⟨"USER", message⟩ := by
    rw [List.getLast?_map, messagesOf_createMessage_getLast _ _ _ hts2]
    rfl
  obtain ⟨h1, h2⟩ := buildRequest_last_two model _ message hlast
  exact ⟨_, _, hH, hR, hlast, rfl, rfl, h1, h2⟩

/-- Witness for `request_contains_user_message_twice` on the empty store. -/
theorem request_contains_user_message_twice_witness :
    ∃ h req,
      (POST DB.empty "hello" none "u" "m" true
          (.success (some "ok"))).gatewayHistory = some h ∧
      (POST DB.empty "hello" none "u" "m" true
          (.success (some "ok"))).gatewayRequest = some req ∧
      h.getLast? = some ⟨"USER", "hello"⟩ ∧
      req = buildRequest "m" h "hello" ∧
      req.messages = ⟨Role.system, SYSTEM_PROMPT⟩ ::
        (sliceLast10 (formatHistory h) ++ [⟨Role.user, "hello"⟩]) ∧
      (req.messages.map ChatMessage.content).getLast? = some "hello" ∧
      ((req.messages.map ChatMessage.content).dropLast).getLast? = some "hello" := by
  exact request_contains_user_message_twice DB.empty "hello" none "u" "m"
    (.success (some "ok")) (by decide) (by intro m hmem; simp [DB.empty] at hmem)

/-- C8 (amended): the listing takes no parameters and returns every
conversation ordered by most-recently-updated first, each with its total
persisted message count and its earliest message text; in the concrete
scenario (two messages sent in session "s1", then one in "s2") "s2" is
listed before "s1" — but since each delivered send persists a user turn
and an assistant turn, the message counts are 2 and 4 (not 1 and 2), and
the first messages are "m1" and "m3" respectively. -/
theorem conversations_listing (db : DB) :
    List.Pairwise (fun a b => b ≤ a)
      ((GETConversations db).map ConversationSummary.updatedAt) ∧
    List.Perm ((GETConversations db).map ConversationSummary.id)
      (db.conversations.map Conversation.id) ∧
    (∀ entry ∈ GETConversations db,
      entry.messageCount =
        (db.messages.filter (fun m => m.conversationId == entry.id)).length) ∧
    ((GETConversations (POST (POST (POST DB.empty "m1" (some "s1") "u1" "m" false
          (.success none)).db "m2" (some "s1") "u2" "m" false (.success none)).db
          "m3" (some "s2") "u3" "m" false (.success none)).db).map
        (fun c => (c.sessionId, c.messageCount, c.firstMessage)))
      = [("s2", 2, "m3"), ("s1", 4, "m1")] := by
  refine ⟨?_, ?_, ?_, by decide⟩
  · unfold GETConversations
    rw [List.map_map]
    exact List.Pairwise.map _ (fun a b hab => hab)
      (List.sorted_insertionSort updatedDesc db.conversations)
  · unfold GETConversations
    rw [List.map_map]
    show List.Perm ((List.insertionSort updatedDesc db.conversations).map
      (fun c => c.id)) (db.conversations.map (fun c => c.id))
    exact (List.perm_insertionSort updatedDesc db.conversations).map (fun c => c.id)
  · intro entry hentry
    unfold GETConversations at hentry
    obtain ⟨conv, -, rfl⟩ := List.mem_map.mp hentry
    rfl

/-- Witness for `conversations_listing` on the scenario store. -/
theorem conversations_listing_witness :
    ∀ entry ∈ GETConversations (POST (POST (POST DB.empty "m1" (some "s1") "u1" "m"
        false (.success none)).db "m2" (some "s1") "u2" "m" false (.success none)).db
        "m3" (some "s2") "u3" "m" false (.success none)).db,
      entry.messageCount =
        ((POST (POST (POST DB.empty "m1" (some "s1") "u1" "m" false
            (.success none)).db "m2" (some "s1") "u2" "m" false (.success none)).db
            "m3" (some "s2") "u3" "m" false
            (.success none)).db.messages.filter
          (fun m => m.conversationId == entry.id)).length :=
  (conversations_listing (POST (POST (POST DB.empty "m1" (some "s1") "u1" "m" false
      (.success none)).db "m2" (some "s1") "u2" "m" false (.success none)).db
      "m3" (some "s2") "u3" "m" false (.success none)).db).2.2.1

end Spurnow
